import Mathlib

/-!
Verification development for the live assessment session engine of the
cehpoint-ai-recruiter repository.  The definitions below are a shallow
embedding of the session lifecycle code in
src/src/components/InterviewScreen.tsx (and of the data model in
src/src/types.ts): the ambient mutable refs of the component become fields
of a single state record, and every callback handler of the component
becomes a state-transition function.  The cooperative single-threaded event
loop is modelled by an inductive event type and a step function; a session
run is a fold of the step function over a list of events.
-/

namespace AiRecruiter

/-- The speaker tag of a transcript entry; mirrors the union
type of TranscriptEntry.speaker in src/src/types.ts. -/
inductive Speaker where
  | user
  | ai
deriving DecidableEq

/-- TranscriptEntry, mirroring src/src/types.ts lines 29-33.  The interface
has exactly the three fields speaker, text and timestamp. -/
structure TranscriptEntry where
  speaker : Speaker
  text : String
  timestamp : String
deriving DecidableEq

/-- InterviewResult, mirroring src/src/types.ts: the payload handed to the
onComplete callback (videoBlob is not modelled). -/
structure InterviewResult where
  passed : Bool
  notes : Option String
  transcript : List TranscriptEntry
deriving DecidableEq

/-- The connectionState union type of InterviewScreen.tsx. -/
inductive ConnState where
  | idle
  | initializing
  | connecting
  | connected
  | reconnecting
  | error
deriving DecidableEq

/-- One functionCall entry of a toolCall server message: the handler reads
fc.name and destructures fc.args as passed and reason. -/
structure ToolCall where
  name : String
  passed : Bool
  reason : String
deriving DecidableEq

/-- The slice of a LiveServerMessage consumed by handleServerMessage:
input/output transcription fragments, the interrupted and turnComplete
flags, the optional inline audio payload (represented by its decoded
duration), and the toolCall function list. -/
structure LiveMsg where
  inputTranscription : Option String
  outputTranscription : Option String
  interrupted : Bool
  turnComplete : Bool
  audioDuration : Option ℚ
  toolCalls : List ToolCall
deriving DecidableEq

/-- The mutable state of one interview session.  Each field models one of
the refs or pieces of React state of InterviewScreen.tsx; the fields
results, pendingFinalize, acks, scheduleLog, scheduledStarts and systemMsgs
are observation logs recording the externally visible effects (onComplete
invocations, scheduled finalizeEndSession timeouts, notifyResult tool
acknowledgements, scheduled reconnect delays, scheduled playback start
times, system text messages sent on the transport). -/
structure SessionState where
  isIntentionalClose : Bool
  sessionActive : Bool
  hasCalledNotify : Bool
  showContactOverlay : Bool
  recorderActive : Bool
  audioCtxActive : Bool
  currentInput : String
  currentAi : String
  transcript : List TranscriptEntry
  questionCount : Nat
  connState : ConnState
  retryCount : Nat
  connectStart : Nat
  retryTimerSet : Bool
  errorMsg : Option String
  timeLeft : Nat
  nextStartTime : ℚ
  isAiSpeaking : Bool
  sourcesCount : Nat
  results : List InterviewResult
  pendingFinalize : List (Bool × Option String)
  acks : Nat
  scheduleLog : List Nat
  scheduledStarts : List ℚ
  systemMsgs : Nat
deriving DecidableEq

/-- The JavaScript String.prototype.trim: drop whitespace from both ends.
Implemented by structural recursion over the character list so that
concrete runs reduce inside the kernel (the core String.trim is defined
through well-founded recursion and does not). -/
def jsTrim (s : String) : String :=
  ⟨((s.data.dropWhile Char.isWhitespace).reverse.dropWhile
      Char.isWhitespace).reverse⟩

/-- The JavaScript String.prototype.endsWith, by comparing the trailing
character-list segment. -/
def jsEndsWith (s pat : String) : Bool :=
  decide (pat.data.length ≤ s.data.length) &&
    (s.data.drop (s.data.length - pat.data.length) == pat.data)

/-- cleanup (InterviewScreen.tsx lines 147-194): sets the intentional-close
flag, cancels the retry timer, stops the recorder, media nodes, audio
context and all playing sources, and drops the session handle.  Note that
a pending finalizeEndSession timeout is anonymous in the source and is not
cancelled here. -/
def cleanup (s : SessionState) : SessionState :=
  { s with isIntentionalClose := true
         , retryTimerSet := false
         , recorderActive := false
         , audioCtxActive := false
         , sourcesCount := 0
         , sessionActive := false }

/-- flushTranscriptBuffers (lines 628-645): each non-empty trimmed buffer
is appended as an entry and cleared. -/
def flushTranscriptBuffers (ts : String) (s : SessionState) : SessionState :=
  let s1 := if jsTrim s.currentInput ≠ "" then
      { s with transcript := s.transcript ++ [⟨Speaker.user, jsTrim s.currentInput, ts⟩]
             , currentInput := "" }
    else s
  if jsTrim s1.currentAi ≠ "" then
    { s1 with transcript := s1.transcript ++ [⟨Speaker.ai, jsTrim s1.currentAi, ts⟩]
            , currentAi := "" }
  else s1

/-- finalizeEndSession (lines 672-692): saves state, runs cleanup, shows
the result overlay and invokes onComplete with the result.  It has no
already-finalized guard of its own. -/
def finalizeEndSession (passed : Bool) (reason : Option String)
    (s : SessionState) : SessionState :=
  let s1 := cleanup s
  let s2 := { s1 with showContactOverlay := true }
  { s2 with results := s2.results ++ [⟨passed, reason, s2.transcript⟩] }

/-- handleEndSession (lines 647-670): returns if the overlay is already
shown, flushes the transcript buffers, and either stops the recorder and
schedules finalizeEndSession on a 500 ms timeout, or finalizes at once. -/
def handleEndSession (ts : String) (passed : Bool) (reason : Option String)
    (s : SessionState) : SessionState :=
  if s.showContactOverlay then s
  else
    let s1 := flushTranscriptBuffers ts s
    if s1.recorderActive then
      { s1 with recorderActive := false
              , pendingFinalize := s1.pendingFinalize ++ [(passed, reason)] }
    else finalizeEndSession passed reason s1

/-- The 500 ms recorder-stop timeout firing: the earliest scheduled
finalizeEndSession callback runs with its captured arguments. -/
def finalizeFireStep (s : SessionState) : SessionState :=
  match s.pendingFinalize with
  | [] => s
  | (passed, reason) :: rest =>
      finalizeEndSession passed reason { s with pendingFinalize := rest }

/-- The reconnect backoff delay of handleDisconnect:
Math.min(1000 * Math.pow(2, retryCount), 5000). -/
def reconnectDelay (n : Nat) : Nat := min (1000 * 2 ^ n) 5000

/-- handleDisconnect (lines 493-510): ignored after an intentional close;
otherwise drops the session handle and either schedules a reconnect with
exponential backoff (incrementing the retry count) or moves to error. -/
def handleDisconnect (s : SessionState) : SessionState :=
  if s.isIntentionalClose then s
  else
    let s1 := { s with sessionActive := false }
    if s1.retryCount < 3 then
      { s1 with connState := ConnState.reconnecting
              , retryCount := s1.retryCount + 1
              , retryTimerSet := true
              , scheduleLog := s1.scheduleLog ++ [reconnectDelay s1.retryCount] }
    else
      { s1 with connState := ConnState.error
              , errorMsg := some "Connection lost. Please reload." }

/-- The onopen callback (lines 441-453): connected, retry budget reset,
error message cleared. -/
def onopenStep (s : SessionState) : SessionState :=
  { s with connState := ConnState.connected
         , retryCount := 0
         , errorMsg := none }

/-- The onclose callback (lines 457-467): a close within 1000 ms of the
connect attempt start is classified as a configuration failure (error, no
retry); otherwise handleDisconnect runs. -/
def oncloseStep (now : Nat) (s : SessionState) : SessionState :=
  if now - s.connectStart < 1000 then
    { s with connState := ConnState.error
           , errorMsg := some "Connection rejected. Please check API Key or Network." }
  else handleDisconnect s

/-- The onerror callback (lines 468-471): it always runs handleDisconnect,
with no elapsed-time classification. -/
def onerrorStep (s : SessionState) : SessionState :=
  handleDisconnect s

/-- connectToGemini (lines 430-434 synchronous part): refuses after an
intentional close, moves to connecting or reconnecting, and records the
connect attempt start time. -/
def connectToGemini (now : Nat) (s : SessionState) : SessionState :=
  if s.isIntentionalClose then s
  else
    { s with connState :=
        if s.connState = ConnState.initializing then ConnState.connecting
        else ConnState.reconnecting
           , connectStart := now }

/-- A scheduled reconnect timeout firing: the stored timer is consumed and
connectToGemini is re-invoked. -/
def retryFireStep (now : Nat) (s : SessionState) : SessionState :=
  if s.retryTimerSet then connectToGemini now { s with retryTimerSet := false }
  else s

/-- The turnComplete branch of handleServerMessage (lines 548-568): commit
the candidate buffer, then the agent buffer; an agent turn ending in a
question mark increments the question count. -/
def commitTurn (ts : String) (s : SessionState) : SessionState :=
  let s1 := if jsTrim s.currentInput ≠ "" then
      { s with transcript := s.transcript ++ [⟨Speaker.user, jsTrim s.currentInput, ts⟩]
             , currentInput := "" }
    else s
  if jsTrim s1.currentAi ≠ "" then
    let s2 := if jsEndsWith (jsTrim s1.currentAi) "?" then
        { s1 with questionCount := s1.questionCount + 1 }
      else s1
    { s2 with transcript := s2.transcript ++ [⟨Speaker.ai, jsTrim s2.currentAi, ts⟩]
            , currentAi := "" }
  else s1

/-- The toolCall loop of handleServerMessage (lines 604-625): for each
functionCall named notifyResult, a duplicate-guard check returns from the
whole handler; the first accepted call sets the guard, acknowledges the
call on the session (optional chaining: only with a live session handle)
and invokes handleEndSession with the agent's passed and reason. -/
def processToolCalls (ts : String) : List ToolCall → SessionState → SessionState
  | [], s => s
  | fc :: rest, s =>
      if fc.name = "notifyResult" then
        if s.hasCalledNotify then s
        else
          let s1 := { s with hasCalledNotify := true }
          let s2 := if s1.sessionActive then { s1 with acks := s1.acks + 1 } else s1
          let s3 := handleEndSession ts fc.passed (some fc.reason) s2
          processToolCalls ts rest s3
      else processToolCalls ts rest s

/-- The transcript-accumulation prologue of handleServerMessage (lines
518-523): append the streamed fragments to the per-turn buffers. -/
def accumTranscripts (msg : LiveMsg) (s : SessionState) : SessionState :=
  let s1 := match msg.inputTranscription with
    | some t => { s with currentInput := s.currentInput ++ t }
    | none => s
  match msg.outputTranscription with
  | some t => { s1 with currentAi := s1.currentAi ++ t }
  | none => s1

/-- The interruption block of handleServerMessage (lines 526-545): stop
and clear every queued audio source, reset the playback timeline to zero,
and commit the partial agent transcript with the Interrupted marker
appended to its text. -/
def interruptFlush (ts : String) (s : SessionState) : SessionState :=
  let s3 := { s with sourcesCount := 0
                   , scheduledStarts := []
                   , nextStartTime := 0
                   , isAiSpeaking := false }
  if jsTrim s3.currentAi ≠ "" then
    { s3 with transcript := s3.transcript ++
        [⟨Speaker.ai, jsTrim s3.currentAi ++ " [Interrupted]", ts⟩]
            , currentAi := "" }
  else s3

/-- The audio-output block of handleServerMessage (lines 570-602): with a
live audio context, the decoded buffer is scheduled to start at the later
of the current clock time and the next free time, and the next free time
advances by the buffer's duration. -/
def audioEnqueue (ctxTime : ℚ) (ad : Option ℚ) (s : SessionState) : SessionState :=
  match ad with
  | some dur =>
      if s.audioCtxActive then
        let start0 := s.nextStartTime
        let start := if start0 < ctxTime then ctxTime else start0
        { s with isAiSpeaking := true
               , nextStartTime := start + dur
               , sourcesCount := s.sourcesCount + 1
               , scheduledStarts := s.scheduledStarts ++ [start] }
      else s
  | none => s

/-- handleServerMessage (lines 512-626): bail out after an intentional
close; accumulate transcription fragments; on an interruption run the
flush block and return; otherwise commit turn boundaries, schedule inline
audio on the playback timeline, and dispatch tool calls. -/
def handleServerMessage (ts : String) (ctxTime : ℚ) (msg : LiveMsg)
    (s : SessionState) : SessionState :=
  if s.isIntentionalClose then s
  else
    let s2 := accumTranscripts msg s
    if msg.interrupted then interruptFlush ts s2
    else
      let s4 := if msg.turnComplete then commitTurn ts s2 else s2
      let s5 := audioEnqueue ctxTime msg.audioDuration s4
      processToolCalls ts msg.toolCalls s5

/-- One firing of the 1-second countdown interval (lines 104-105): while
connected with time left and no overlay, the remaining time decreases. -/
def timerTickStep (s : SessionState) : SessionState :=
  if s.connState = ConnState.connected ∧ 0 < s.timeLeft ∧ ¬s.showContactOverlay then
    { s with timeLeft := s.timeLeft - 1 }
  else s

/-- The timer effect body at an expired budget (lines 106-113): when the
time budget is zero and the overlay is not shown, and no decision has been
produced, a forced-conclusion system message is sent on the session; no
finalization is scheduled here. -/
def timerExpiredStep (s : SessionState) : SessionState :=
  if s.timeLeft = 0 ∧ ¬s.showContactOverlay then
    if ¬s.hasCalledNotify then
      if s.sessionActive then { s with systemMsgs := s.systemMsgs + 1 } else s
    else s
  else s

/-- The hard-timeout grace effect added by the repository's
add-ai-decision-ref.ps1 patch script (src/unnamed/part_001 lines 62-74):
when the budget is zero with no overlay and no decision, a 3-second
setTimeout is armed whose callback re-checks the decision guard and then
force-finalizes through handleEndSession with a timeout reason.  This
effect is absent from the shipped InterviewScreen.tsx component; it is
embedded here from the patch script to document the intended behaviour. -/
def patchedGraceFire (ts : String) (s : SessionState) : SessionState :=
  if s.timeLeft = 0 ∧ ¬s.showContactOverlay ∧ ¬s.hasCalledNotify then
    handleEndSession ts false (some "Interview time limit reached (10 minutes)") s
  else s

/-- The third tab-switch of the security watcher (lines 214-219): the
intentional-close flag is set and handleEndSession runs with the
security-violation reason. -/
def securityStopStep (ts : String) (s : SessionState) : SessionState :=
  handleEndSession ts false
    (some "Interview terminated: Suspicious activity detected (multiple tab switches). This suggests use of external resources during the interview.")
    { s with isIntentionalClose := true }

/-- The events of the cooperative loop: transport messages, the End
Interview click (line 938: handleEndSession(false, User terminated)), the
security auto-stop, the recorder-stop finalize timeout, the countdown tick
and expiry, and the connection supervisor callbacks. -/
inductive Event where
  | serverMsg (ts : String) (ctxTime : ℚ) (msg : LiveMsg)
  | manualStop (ts : String)
  | securityStop (ts : String)
  | finalizeFire
  | timerTick
  | timerExpired
  | opened
  | closed (now : Nat)
  | errored
  | retryFire (now : Nat)

deriving instance DecidableEq for Event

/-- Dispatch one event to its handler. -/
def step (e : Event) (s : SessionState) : SessionState :=
  match e with
  | .serverMsg ts t msg => handleServerMessage ts t msg s
  | .manualStop ts => handleEndSession ts false (some "User terminated") s
  | .securityStop ts => securityStopStep ts s
  | .finalizeFire => finalizeFireStep s
  | .timerTick => timerTickStep s
  | .timerExpired => timerExpiredStep s
  | .opened => onopenStep s
  | .closed now => oncloseStep now s
  | .errored => onerrorStep s
  | .retryFire now => retryFireStep now s

/-- Run a list of events in order. -/
def runTrace (evs : List Event) (s : SessionState) : SessionState :=
  evs.foldl (fun s e => step e s) s

/-- The state at component mount: every guard flag clear, empty buffers
and logs, a 600-second budget. -/
def initialState : SessionState where
  isIntentionalClose := false
  sessionActive := false
  hasCalledNotify := false
  showContactOverlay := false
  recorderActive := false
  audioCtxActive := false
  currentInput := ""
  currentAi := ""
  transcript := []
  questionCount := 0
  connState := ConnState.idle
  retryCount := 0
  connectStart := 0
  retryTimerSet := false
  errorMsg := none
  timeLeft := 600
  nextStartTime := 0
  isAiSpeaking := false
  sourcesCount := 0
  results := []
  pendingFinalize := []
  acks := 0
  scheduleLog := []
  scheduledStarts := []
  systemMsgs := 0

/-- A mid-session state: media and recorder initialized, transport
connected with a live session handle. -/
def liveState : SessionState :=
  { initialState with sessionActive := true
                    , recorderActive := true
                    , audioCtxActive := true
                    , connState := ConnState.connected }

/-- The squared RMS energy of a captured frame: (sum of squares) / length.
The source computes rms = sqrt(sum / length) and compares it against the
threshold 0.002; since both sides are non-negative, rms < 0.002 holds
exactly when rmsSq < 0.002 squared, so the gate is embedded in squared
form to stay within exact rational arithmetic. -/
def rmsSq (frame : List ℚ) : ℚ :=
  ((frame.map fun x => x * x).sum) / frame.length

set_option linter.unusedVariables false in
/-- The onaudioprocess callback of the first InterviewScreen variant
(lines 398-415): after the shutdown and live-session guards, every
captured frame is encoded and handed to sendRealtimeInput, with no energy
gate.  The result is whether the frame is transmitted. -/
def onaudioprocessV1 (intentionalClose sessionLive : Bool)
    (frame : List ℚ) : Bool :=
  if intentionalClose then false
  else if !sessionLive then false
  else true

/-- The onaudioprocess callback of the second InterviewScreen variant
(lines 1389-1423): after the same guards, the frame's RMS is computed and
the frame is dropped when it falls below the hard-coded threshold 0.002
(embedded squared, see rmsSq); only frames at or above the threshold are
transmitted. -/
def onaudioprocessV2 (intentionalClose sessionLive : Bool)
    (frame : List ℚ) : Bool :=
  if intentionalClose then false
  else if !sessionLive then false
  else if rmsSq frame < (2 / 1000 : ℚ) ^ 2 then false
  else true

/-- A server message carrying a single notifyResult tool call and nothing
else. -/
def notifyMsg (passed : Bool) (reason : String) : LiveMsg where
  inputTranscription := none
  outputTranscription := none
  interrupted := false
  turnComplete := false
  audioDuration := none
  toolCalls := [⟨"notifyResult", passed, reason⟩]

/-! Preservation lemmas: which state fields each handler leaves alone.
These are the bookkeeping facts behind the session invariants. -/

@[simp] lemma flush_acks (ts : String) (s : SessionState) :
    (flushTranscriptBuffers ts s).acks = s.acks := by
  simp only [flushTranscriptBuffers]; split_ifs <;> rfl

@[simp] lemma flush_hasCalledNotify (ts : String) (s : SessionState) :
    (flushTranscriptBuffers ts s).hasCalledNotify = s.hasCalledNotify := by
  simp only [flushTranscriptBuffers]; split_ifs <;> rfl

@[simp] lemma flush_results (ts : String) (s : SessionState) :
    (flushTranscriptBuffers ts s).results = s.results := by
  simp only [flushTranscriptBuffers]; split_ifs <;> rfl

@[simp] lemma flush_pendingFinalize (ts : String) (s : SessionState) :
    (flushTranscriptBuffers ts s).pendingFinalize = s.pendingFinalize := by
  simp only [flushTranscriptBuffers]; split_ifs <;> rfl

@[simp] lemma flush_recorderActive (ts : String) (s : SessionState) :
    (flushTranscriptBuffers ts s).recorderActive = s.recorderActive := by
  simp only [flushTranscriptBuffers]; split_ifs <;> rfl

@[simp] lemma flush_retryCount (ts : String) (s : SessionState) :
    (flushTranscriptBuffers ts s).retryCount = s.retryCount := by
  simp only [flushTranscriptBuffers]; split_ifs <;> rfl

@[simp] lemma flush_scheduleLog (ts : String) (s : SessionState) :
    (flushTranscriptBuffers ts s).scheduleLog = s.scheduleLog := by
  simp only [flushTranscriptBuffers]; split_ifs <;> rfl

@[simp] lemma flush_nextStartTime (ts : String) (s : SessionState) :
    (flushTranscriptBuffers ts s).nextStartTime = s.nextStartTime := by
  simp only [flushTranscriptBuffers]; split_ifs <;> rfl

@[simp] lemma flush_scheduledStarts (ts : String) (s : SessionState) :
    (flushTranscriptBuffers ts s).scheduledStarts = s.scheduledStarts := by
  simp only [flushTranscriptBuffers]; split_ifs <;> rfl

@[simp] lemma flush_questionCount (ts : String) (s : SessionState) :
    (flushTranscriptBuffers ts s).questionCount = s.questionCount := by
  simp only [flushTranscriptBuffers]; split_ifs <;> rfl

@[simp] lemma flush_connState (ts : String) (s : SessionState) :
    (flushTranscriptBuffers ts s).connState = s.connState := by
  simp only [flushTranscriptBuffers]; split_ifs <;> rfl

@[simp] lemma commitTurn_acks (ts : String) (s : SessionState) :
    (commitTurn ts s).acks = s.acks := by
  simp only [commitTurn]; split_ifs <;> rfl

@[simp] lemma commitTurn_hasCalledNotify (ts : String) (s : SessionState) :
    (commitTurn ts s).hasCalledNotify = s.hasCalledNotify := by
  simp only [commitTurn]; split_ifs <;> rfl

@[simp] lemma commitTurn_results (ts : String) (s : SessionState) :
    (commitTurn ts s).results = s.results := by
  simp only [commitTurn]; split_ifs <;> rfl

@[simp] lemma commitTurn_pendingFinalize (ts : String) (s : SessionState) :
    (commitTurn ts s).pendingFinalize = s.pendingFinalize := by
  simp only [commitTurn]; split_ifs <;> rfl

@[simp] lemma commitTurn_recorderActive (ts : String) (s : SessionState) :
    (commitTurn ts s).recorderActive = s.recorderActive := by
  simp only [commitTurn]; split_ifs <;> rfl

@[simp] lemma commitTurn_retryCount (ts : String) (s : SessionState) :
    (commitTurn ts s).retryCount = s.retryCount := by
  simp only [commitTurn]; split_ifs <;> rfl

@[simp] lemma commitTurn_scheduleLog (ts : String) (s : SessionState) :
    (commitTurn ts s).scheduleLog = s.scheduleLog := by
  simp only [commitTurn]; split_ifs <;> rfl

@[simp] lemma commitTurn_nextStartTime (ts : String) (s : SessionState) :
    (commitTurn ts s).nextStartTime = s.nextStartTime := by
  simp only [commitTurn]; split_ifs <;> rfl

@[simp] lemma commitTurn_scheduledStarts (ts : String) (s : SessionState) :
    (commitTurn ts s).scheduledStarts = s.scheduledStarts := by
  simp only [commitTurn]; split_ifs <;> rfl

@[simp] lemma commitTurn_connState (ts : String) (s : SessionState) :
    (commitTurn ts s).connState = s.connState := by
  simp only [commitTurn]; split_ifs <;> rfl

@[simp] lemma commitTurn_isIntentionalClose (ts : String) (s : SessionState) :
    (commitTurn ts s).isIntentionalClose = s.isIntentionalClose := by
  simp only [commitTurn]; split_ifs <;> rfl

@[simp] lemma commitTurn_sessionActive (ts : String) (s : SessionState) :
    (commitTurn ts s).sessionActive = s.sessionActive := by
  simp only [commitTurn]; split_ifs <;> rfl

@[simp] lemma commitTurn_audioCtxActive (ts : String) (s : SessionState) :
    (commitTurn ts s).audioCtxActive = s.audioCtxActive := by
  simp only [commitTurn]; split_ifs <;> rfl

@[simp] lemma commitTurn_showContactOverlay (ts : String) (s : SessionState) :
    (commitTurn ts s).showContactOverlay = s.showContactOverlay := by
  simp only [commitTurn]; split_ifs <;> rfl

@[simp] lemma flush_isIntentionalClose (ts : String) (s : SessionState) :
    (flushTranscriptBuffers ts s).isIntentionalClose = s.isIntentionalClose := by
  simp only [flushTranscriptBuffers]; split_ifs <;> rfl

@[simp] lemma flush_sessionActive (ts : String) (s : SessionState) :
    (flushTranscriptBuffers ts s).sessionActive = s.sessionActive := by
  simp only [flushTranscriptBuffers]; split_ifs <;> rfl

@[simp] lemma flush_showContactOverlay (ts : String) (s : SessionState) :
    (flushTranscriptBuffers ts s).showContactOverlay = s.showContactOverlay := by
  simp only [flushTranscriptBuffers]; split_ifs <;> rfl

@[simp] lemma finalize_acks (p : Bool) (r : Option String) (s : SessionState) :
    (finalizeEndSession p r s).acks = s.acks := rfl

@[simp] lemma finalize_hasCalledNotify (p : Bool) (r : Option String) (s : SessionState) :
    (finalizeEndSession p r s).hasCalledNotify = s.hasCalledNotify := rfl

@[simp] lemma finalize_results (p : Bool) (r : Option String) (s : SessionState) :
    (finalizeEndSession p r s).results = s.results ++ [⟨p, r, s.transcript⟩] := rfl

@[simp] lemma finalize_pendingFinalize (p : Bool) (r : Option String) (s : SessionState) :
    (finalizeEndSession p r s).pendingFinalize = s.pendingFinalize := rfl

@[simp] lemma finalize_retryCount (p : Bool) (r : Option String) (s : SessionState) :
    (finalizeEndSession p r s).retryCount = s.retryCount := rfl

@[simp] lemma finalize_scheduleLog (p : Bool) (r : Option String) (s : SessionState) :
    (finalizeEndSession p r s).scheduleLog = s.scheduleLog := rfl

@[simp] lemma finalize_nextStartTime (p : Bool) (r : Option String) (s : SessionState) :
    (finalizeEndSession p r s).nextStartTime = s.nextStartTime := rfl

@[simp] lemma finalize_scheduledStarts (p : Bool) (r : Option String) (s : SessionState) :
    (finalizeEndSession p r s).scheduledStarts = s.scheduledStarts := rfl

@[simp] lemma finalize_questionCount (p : Bool) (r : Option String) (s : SessionState) :
    (finalizeEndSession p r s).questionCount = s.questionCount := rfl

@[simp] lemma finalize_connState (p : Bool) (r : Option String) (s : SessionState) :
    (finalizeEndSession p r s).connState = s.connState := rfl

@[simp] lemma finalize_showContactOverlay (p : Bool) (r : Option String) (s : SessionState) :
    (finalizeEndSession p r s).showContactOverlay = true := rfl

@[simp] lemma handleEnd_acks (ts : String) (p : Bool) (r : Option String) (s : SessionState) :
    (handleEndSession ts p r s).acks = s.acks := by
  simp only [handleEndSession]; split_ifs <;> simp

@[simp] lemma handleEnd_hasCalledNotify (ts : String) (p : Bool) (r : Option String)
    (s : SessionState) :
    (handleEndSession ts p r s).hasCalledNotify = s.hasCalledNotify := by
  simp only [handleEndSession]; split_ifs <;> simp

@[simp] lemma handleEnd_retryCount (ts : String) (p : Bool) (r : Option String)
    (s : SessionState) :
    (handleEndSession ts p r s).retryCount = s.retryCount := by
  simp only [handleEndSession]; split_ifs <;> simp

@[simp] lemma handleEnd_scheduleLog (ts : String) (p : Bool) (r : Option String)
    (s : SessionState) :
    (handleEndSession ts p r s).scheduleLog = s.scheduleLog := by
  simp only [handleEndSession]; split_ifs <;> simp

@[simp] lemma handleEnd_connState (ts : String) (p : Bool) (r : Option String)
    (s : SessionState) :
    (handleEndSession ts p r s).connState = s.connState := by
  simp only [handleEndSession]; split_ifs <;> simp

@[simp] lemma handleEnd_nextStartTime (ts : String) (p : Bool) (r : Option String)
    (s : SessionState) :
    (handleEndSession ts p r s).nextStartTime = s.nextStartTime := by
  simp only [handleEndSession]; split_ifs <;> simp

@[simp] lemma handleEnd_scheduledStarts (ts : String) (p : Bool) (r : Option String)
    (s : SessionState) :
    (handleEndSession ts p r s).scheduledStarts = s.scheduledStarts := by
  simp only [handleEndSession]; split_ifs <;> simp

@[simp] lemma handleEnd_questionCount (ts : String) (p : Bool) (r : Option String)
    (s : SessionState) :
    (handleEndSession ts p r s).questionCount = s.questionCount := by
  simp only [handleEndSession]; split_ifs <;> simp

/-- With no overlay shown yet, handleEndSession produces exactly one new
finalization: either one scheduled finalize callback or one immediate
result. -/
lemma handleEnd_growth (ts : String) (p : Bool) (r : Option String) (s : SessionState)
    (h : s.showContactOverlay = false) :
    (handleEndSession ts p r s).results.length +
        (handleEndSession ts p r s).pendingFinalize.length =
      s.results.length + s.pendingFinalize.length + 1 := by
  simp only [handleEndSession, h]
  split_ifs <;> simp_all <;> omega

@[simp] lemma finalizeFire_acks (s : SessionState) :
    (finalizeFireStep s).acks = s.acks := by
  simp only [finalizeFireStep]; split <;> simp

@[simp] lemma finalizeFire_hasCalledNotify (s : SessionState) :
    (finalizeFireStep s).hasCalledNotify = s.hasCalledNotify := by
  simp only [finalizeFireStep]; split <;> simp

@[simp] lemma finalizeFire_retryCount (s : SessionState) :
    (finalizeFireStep s).retryCount = s.retryCount := by
  simp only [finalizeFireStep]; split <;> simp

@[simp] lemma finalizeFire_scheduleLog (s : SessionState) :
    (finalizeFireStep s).scheduleLog = s.scheduleLog := by
  simp only [finalizeFireStep]; split <;> simp

@[simp] lemma finalizeFire_nextStartTime (s : SessionState) :
    (finalizeFireStep s).nextStartTime = s.nextStartTime := by
  simp only [finalizeFireStep]; split <;> simp

@[simp] lemma finalizeFire_scheduledStarts (s : SessionState) :
    (finalizeFireStep s).scheduledStarts = s.scheduledStarts := by
  simp only [finalizeFireStep]; split <;> simp

@[simp] lemma finalizeFire_questionCount (s : SessionState) :
    (finalizeFireStep s).questionCount = s.questionCount := by
  simp only [finalizeFireStep]; split <;> simp

/-- Once the duplicate guard is set, the notifyResult loop is a complete
no-op: the first notifyResult entry returns from the handler and
non-notify entries fall through. -/
lemma processToolCalls_of_called (ts : String) (calls : List ToolCall)
    (s : SessionState) (h : s.hasCalledNotify = true) :
    processToolCalls ts calls s = s := by
  induction calls with
  | nil => rfl
  | cons fc rest ih =>
      simp only [processToolCalls, h]
      split_ifs <;> simp [ih]

/-- The notifyResult loop never touches the connection supervisor's retry
count. -/
@[simp] lemma ptc_retryCount (ts : String) (calls : List ToolCall) :
    ∀ s : SessionState, (processToolCalls ts calls s).retryCount = s.retryCount := by
  induction calls with
  | nil => intro s; rfl
  | cons fc rest ih =>
      intro s
      simp only [processToolCalls]
      split_ifs <;> simp [ih]

@[simp] lemma ptc_scheduleLog (ts : String) (calls : List ToolCall) :
    ∀ s : SessionState, (processToolCalls ts calls s).scheduleLog = s.scheduleLog := by
  induction calls with
  | nil => intro s; rfl
  | cons fc rest ih =>
      intro s
      simp only [processToolCalls]
      split_ifs <;> simp [ih]

@[simp] lemma ptc_connState (ts : String) (calls : List ToolCall) :
    ∀ s : SessionState, (processToolCalls ts calls s).connState = s.connState := by
  induction calls with
  | nil => intro s; rfl
  | cons fc rest ih =>
      intro s
      simp only [processToolCalls]
      split_ifs <;> simp [ih]

@[simp] lemma ptc_nextStartTime (ts : String) (calls : List ToolCall) :
    ∀ s : SessionState, (processToolCalls ts calls s).nextStartTime = s.nextStartTime := by
  induction calls with
  | nil => intro s; rfl
  | cons fc rest ih =>
      intro s
      simp only [processToolCalls]
      split_ifs <;> simp [ih]

@[simp] lemma ptc_scheduledStarts (ts : String) (calls : List ToolCall) :
    ∀ s : SessionState, (processToolCalls ts calls s).scheduledStarts = s.scheduledStarts := by
  induction calls with
  | nil => intro s; rfl
  | cons fc rest ih =>
      intro s
      simp only [processToolCalls]
      split_ifs <;> simp [ih]

@[simp] lemma ptc_questionCount (ts : String) (calls : List ToolCall) :
    ∀ s : SessionState, (processToolCalls ts calls s).questionCount = s.questionCount := by
  induction calls with
  | nil => intro s; rfl
  | cons fc rest ih =>
      intro s
      simp only [processToolCalls]
      split_ifs <;> simp [ih]

@[simp] lemma accum_acks (msg : LiveMsg) (s : SessionState) :
    (accumTranscripts msg s).acks = s.acks := by
  unfold accumTranscripts
  cases msg.inputTranscription <;> cases msg.outputTranscription <;> rfl

@[simp] lemma accum_hasCalledNotify (msg : LiveMsg) (s : SessionState) :
    (accumTranscripts msg s).hasCalledNotify = s.hasCalledNotify := by
  unfold accumTranscripts
  cases msg.inputTranscription <;> cases msg.outputTranscription <;> rfl

@[simp] lemma accum_results (msg : LiveMsg) (s : SessionState) :
    (accumTranscripts msg s).results = s.results := by
  unfold accumTranscripts
  cases msg.inputTranscription <;> cases msg.outputTranscription <;> rfl

@[simp] lemma accum_pendingFinalize (msg : LiveMsg) (s : SessionState) :
    (accumTranscripts msg s).pendingFinalize = s.pendingFinalize := by
  unfold accumTranscripts
  cases msg.inputTranscription <;> cases msg.outputTranscription <;> rfl

@[simp] lemma accum_retryCount (msg : LiveMsg) (s : SessionState) :
    (accumTranscripts msg s).retryCount = s.retryCount := by
  unfold accumTranscripts
  cases msg.inputTranscription <;> cases msg.outputTranscription <;> rfl

@[simp] lemma accum_scheduleLog (msg : LiveMsg) (s : SessionState) :
    (accumTranscripts msg s).scheduleLog = s.scheduleLog := by
  unfold accumTranscripts
  cases msg.inputTranscription <;> cases msg.outputTranscription <;> rfl

@[simp] lemma accum_connState (msg : LiveMsg) (s : SessionState) :
    (accumTranscripts msg s).connState = s.connState := by
  unfold accumTranscripts
  cases msg.inputTranscription <;> cases msg.outputTranscription <;> rfl

@[simp] lemma accum_nextStartTime (msg : LiveMsg) (s : SessionState) :
    (accumTranscripts msg s).nextStartTime = s.nextStartTime := by
  unfold accumTranscripts
  cases msg.inputTranscription <;> cases msg.outputTranscription <;> rfl

@[simp] lemma accum_scheduledStarts (msg : LiveMsg) (s : SessionState) :
    (accumTranscripts msg s).scheduledStarts = s.scheduledStarts := by
  unfold accumTranscripts
  cases msg.inputTranscription <;> cases msg.outputTranscription <;> rfl

@[simp] lemma accum_questionCount (msg : LiveMsg) (s : SessionState) :
    (accumTranscripts msg s).questionCount = s.questionCount := by
  unfold accumTranscripts
  cases msg.inputTranscription <;> cases msg.outputTranscription <;> rfl

@[simp] lemma accum_transcript (msg : LiveMsg) (s : SessionState) :
    (accumTranscripts msg s).transcript = s.transcript := by
  unfold accumTranscripts
  cases msg.inputTranscription <;> cases msg.outputTranscription <;> rfl

@[simp] lemma accum_audioCtxActive (msg : LiveMsg) (s : SessionState) :
    (accumTranscripts msg s).audioCtxActive = s.audioCtxActive := by
  unfold accumTranscripts
  cases msg.inputTranscription <;> cases msg.outputTranscription <;> rfl

@[simp] lemma interruptFlush_acks (ts : String) (s : SessionState) :
    (interruptFlush ts s).acks = s.acks := by
  simp only [interruptFlush]; split_ifs <;> rfl

@[simp] lemma interruptFlush_hasCalledNotify (ts : String) (s : SessionState) :
    (interruptFlush ts s).hasCalledNotify = s.hasCalledNotify := by
  simp only [interruptFlush]; split_ifs <;> rfl

@[simp] lemma interruptFlush_results (ts : String) (s : SessionState) :
    (interruptFlush ts s).results = s.results := by
  simp only [interruptFlush]; split_ifs <;> rfl

@[simp] lemma interruptFlush_pendingFinalize (ts : String) (s : SessionState) :
    (interruptFlush ts s).pendingFinalize = s.pendingFinalize := by
  simp only [interruptFlush]; split_ifs <;> rfl

@[simp] lemma interruptFlush_retryCount (ts : String) (s : SessionState) :
    (interruptFlush ts s).retryCount = s.retryCount := by
  simp only [interruptFlush]; split_ifs <;> rfl

@[simp] lemma interruptFlush_scheduleLog (ts : String) (s : SessionState) :
    (interruptFlush ts s).scheduleLog = s.scheduleLog := by
  simp only [interruptFlush]; split_ifs <;> rfl

@[simp] lemma interruptFlush_connState (ts : String) (s : SessionState) :
    (interruptFlush ts s).connState = s.connState := by
  simp only [interruptFlush]; split_ifs <;> rfl

@[simp] lemma interruptFlush_nextStartTime (ts : String) (s : SessionState) :
    (interruptFlush ts s).nextStartTime = 0 := by
  simp only [interruptFlush]; split_ifs <;> rfl

@[simp] lemma interruptFlush_scheduledStarts (ts : String) (s : SessionState) :
    (interruptFlush ts s).scheduledStarts = [] := by
  simp only [interruptFlush]; split_ifs <;> rfl

@[simp] lemma interruptFlush_questionCount (ts : String) (s : SessionState) :
    (interruptFlush ts s).questionCount = s.questionCount := by
  simp only [interruptFlush]; split_ifs <;> rfl

@[simp] lemma interruptFlush_sourcesCount (ts : String) (s : SessionState) :
    (interruptFlush ts s).sourcesCount = 0 := by
  simp only [interruptFlush]; split_ifs <;> rfl

@[simp] lemma interruptFlush_isAiSpeaking (ts : String) (s : SessionState) :
    (interruptFlush ts s).isAiSpeaking = false := by
  simp only [interruptFlush]; split_ifs <;> rfl

@[simp] lemma audioEnqueue_acks (t : ℚ) (ad : Option ℚ) (s : SessionState) :
    (audioEnqueue t ad s).acks = s.acks := by
  unfold audioEnqueue; cases ad <;> simp <;> split_ifs <;> rfl

@[simp] lemma audioEnqueue_hasCalledNotify (t : ℚ) (ad : Option ℚ) (s : SessionState) :
    (audioEnqueue t ad s).hasCalledNotify = s.hasCalledNotify := by
  unfold audioEnqueue; cases ad <;> simp <;> split_ifs <;> rfl

@[simp] lemma audioEnqueue_results (t : ℚ) (ad : Option ℚ) (s : SessionState) :
    (audioEnqueue t ad s).results = s.results := by
  unfold audioEnqueue; cases ad <;> simp <;> split_ifs <;> rfl

@[simp] lemma audioEnqueue_pendingFinalize (t : ℚ) (ad : Option ℚ) (s : SessionState) :
    (audioEnqueue t ad s).pendingFinalize = s.pendingFinalize := by
  unfold audioEnqueue; cases ad <;> simp <;> split_ifs <;> rfl

@[simp] lemma audioEnqueue_retryCount (t : ℚ) (ad : Option ℚ) (s : SessionState) :
    (audioEnqueue t ad s).retryCount = s.retryCount := by
  unfold audioEnqueue; cases ad <;> simp <;> split_ifs <;> rfl

@[simp] lemma audioEnqueue_scheduleLog (t : ℚ) (ad : Option ℚ) (s : SessionState) :
    (audioEnqueue t ad s).scheduleLog = s.scheduleLog := by
  unfold audioEnqueue; cases ad <;> simp <;> split_ifs <;> rfl

@[simp] lemma audioEnqueue_connState (t : ℚ) (ad : Option ℚ) (s : SessionState) :
    (audioEnqueue t ad s).connState = s.connState := by
  unfold audioEnqueue; cases ad <;> simp <;> split_ifs <;> rfl

@[simp] lemma audioEnqueue_questionCount (t : ℚ) (ad : Option ℚ) (s : SessionState) :
    (audioEnqueue t ad s).questionCount = s.questionCount := by
  unfold audioEnqueue; cases ad <;> simp <;> split_ifs <;> rfl

@[simp] lemma audioEnqueue_transcript (t : ℚ) (ad : Option ℚ) (s : SessionState) :
    (audioEnqueue t ad s).transcript = s.transcript := by
  unfold audioEnqueue; cases ad <;> simp <;> split_ifs <;> rfl

@[simp] lemma hsm_retryCount (ts : String) (t : ℚ) (msg : LiveMsg) (s : SessionState) :
    (handleServerMessage ts t msg s).retryCount = s.retryCount := by
  simp only [handleServerMessage]
  split_ifs <;> simp

@[simp] lemma hsm_scheduleLog (ts : String) (t : ℚ) (msg : LiveMsg) (s : SessionState) :
    (handleServerMessage ts t msg s).scheduleLog = s.scheduleLog := by
  simp only [handleServerMessage]
  split_ifs <;> simp

@[simp] lemma hsm_connState (ts : String) (t : ℚ) (msg : LiveMsg) (s : SessionState) :
    (handleServerMessage ts t msg s).connState = s.connState := by
  simp only [handleServerMessage]
  split_ifs <;> simp

/-! The at-most-once invariant of the Decision Arbiter: the number of tool
acknowledgements already sent is bounded by the duplicate guard flag. -/

/-- At most one notifyResult acknowledgement, and none before the guard
flag is set. -/
def acksInv (s : SessionState) : Prop :=
  s.acks ≤ 1 ∧ (s.hasCalledNotify = false → s.acks = 0)

lemma acksInv_congr {s s' : SessionState} (ha : s'.acks = s.acks)
    (hn : s'.hasCalledNotify = s.hasCalledNotify) (h : acksInv s) : acksInv s' := by
  unfold acksInv at *
  rw [ha, hn]
  exact h

lemma ptc_acksInv (ts : String) (calls : List ToolCall) :
    ∀ s : SessionState, acksInv s → acksInv (processToolCalls ts calls s) := by
  induction calls with
  | nil => intro s h; exact h
  | cons fc rest ih =>
      intro s h
      simp only [processToolCalls]
      split_ifs with h1 h2 h3
      · exact h
      · apply ih
        have hz : s.acks = 0 := h.2 (by simpa using h2)
        constructor
        · simp [hz]
        · simp
      · apply ih
        constructor
        · simpa using h.1
        · simp
      · exact ih s h

lemma hsm_acksInv (ts : String) (t : ℚ) (msg : LiveMsg) (s : SessionState)
    (h : acksInv s) : acksInv (handleServerMessage ts t msg s) := by
  simp only [handleServerMessage]
  split_ifs
  · exact h
  · refine acksInv_congr ?_ ?_ h <;> simp
  all_goals
    apply ptc_acksInv
    refine acksInv_congr ?_ ?_ h <;> simp

lemma step_acksInv (e : Event) (s : SessionState) (h : acksInv s) :
    acksInv (step e s) := by
  cases e with
  | serverMsg ts t msg => exact hsm_acksInv ts t msg s h
  | manualStop ts => refine acksInv_congr ?_ ?_ h <;> simp [step]
  | securityStop ts =>
      refine acksInv_congr ?_ ?_ h <;> simp [step, securityStopStep]
  | finalizeFire => refine acksInv_congr ?_ ?_ h <;> simp [step]
  | timerTick =>
      show acksInv (timerTickStep s)
      unfold timerTickStep
      split_ifs <;> exact h
  | timerExpired =>
      show acksInv (timerExpiredStep s)
      unfold timerExpiredStep
      split_ifs <;> exact h
  | opened => exact h
  | closed now =>
      show acksInv (oncloseStep now s)
      simp only [oncloseStep, handleDisconnect]
      split_ifs <;> exact h
  | errored =>
      show acksInv (onerrorStep s)
      simp only [onerrorStep, handleDisconnect]
      split_ifs <;> exact h
  | retryFire now =>
      show acksInv (retryFireStep now s)
      simp only [retryFireStep, connectToGemini]
      split_ifs <;> exact h

lemma runTrace_acksInv (evs : List Event) :
    ∀ s : SessionState, acksInv s → acksInv (runTrace evs s) := by
  induction evs with
  | nil => intro s h; exact h
  | cons e rest ih =>
      intro s h
      exact ih (step e s) (step_acksInv e s h)

/-! The bounded-retry invariant of the Connection Supervisor: without a
newly established connection, the reconnect schedule log can grow by at
most the remaining retry budget. -/

/-- The schedule log length stays within the budget accounted against the
current retry count, which itself never exceeds 3. -/
def logBound (b : Nat) (s : SessionState) : Prop :=
  s.scheduleLog.length ≤ b + s.retryCount ∧ s.retryCount ≤ 3

lemma logBound_congr {b : Nat} {s s' : SessionState}
    (hl : s'.scheduleLog = s.scheduleLog) (hr : s'.retryCount = s.retryCount)
    (h : logBound b s) : logBound b s' := by
  unfold logBound at *
  rw [hl, hr]
  exact h

lemma handleDisconnect_logBound (b : Nat) (s : SessionState)
    (h : logBound b s) : logBound b (handleDisconnect s) := by
  obtain ⟨h1, h2⟩ := h
  simp only [handleDisconnect]
  split_ifs with hI hlt
  · exact ⟨h1, h2⟩
  · constructor
    · show (s.scheduleLog ++ [reconnectDelay s.retryCount]).length ≤ b + (s.retryCount + 1)
      simp only [List.length_append, List.length_singleton]
      omega
    · show s.retryCount + 1 ≤ 3
      omega
  · exact ⟨h1, h2⟩

lemma step_logBound (b : Nat) (e : Event) (s : SessionState)
    (he : e ≠ Event.opened) (h : logBound b s) : logBound b (step e s) := by
  cases e with
  | serverMsg ts t msg => refine logBound_congr ?_ ?_ h <;> simp [step]
  | manualStop ts => refine logBound_congr ?_ ?_ h <;> simp [step]
  | securityStop ts =>
      refine logBound_congr ?_ ?_ h <;> simp [step, securityStopStep]
  | finalizeFire => refine logBound_congr ?_ ?_ h <;> simp [step]
  | timerTick =>
      show logBound b (timerTickStep s)
      unfold timerTickStep
      split_ifs <;> exact h
  | timerExpired =>
      show logBound b (timerExpiredStep s)
      unfold timerExpiredStep
      split_ifs <;> exact h
  | opened => exact absurd rfl he
  | closed now =>
      show logBound b (oncloseStep now s)
      simp only [oncloseStep]
      split_ifs
      · exact h
      · exact handleDisconnect_logBound b s h
  | errored => exact handleDisconnect_logBound b s h
  | retryFire now =>
      show logBound b (retryFireStep now s)
      simp only [retryFireStep, connectToGemini]
      split_ifs <;> exact h

lemma runTrace_logBound (b : Nat) (evs : List Event) :
    ∀ s : SessionState, (∀ e ∈ evs, e ≠ Event.opened) → logBound b s →
      logBound b (runTrace evs s) := by
  induction evs with
  | nil => intro s _ h; exact h
  | cons e rest ih =>
      intro s he h
      exact ih (step e s) (fun x hx => he x (List.mem_cons_of_mem e hx))
        (step_logBound b e s (he e (List.mem_cons_self e rest)) h)

/-- A duplicate notifyResult delivery is inert: with the guard flag
already set, a server message changes none of the decision observables. -/
lemma hsm_dup_noop (ts : String) (t : ℚ) (msg : LiveMsg) (s : SessionState)
    (h : s.hasCalledNotify = true) :
    (handleServerMessage ts t msg s).acks = s.acks ∧
    (handleServerMessage ts t msg s).results = s.results ∧
    (handleServerMessage ts t msg s).pendingFinalize = s.pendingFinalize ∧
    (handleServerMessage ts t msg s).hasCalledNotify = true := by
  simp only [handleServerMessage]
  split_ifs
  · exact ⟨rfl, rfl, rfl, h⟩
  · refine ⟨?_, ?_, ?_, ?_⟩ <;> simp [h]
  · have hx := processToolCalls_of_called ts msg.toolCalls
      (audioEnqueue t msg.audioDuration (commitTurn ts (accumTranscripts msg s)))
      (by simp [h])
    rw [hx]
    refine ⟨?_, ?_, ?_, ?_⟩ <;> simp [h]
  · have hx := processToolCalls_of_called ts msg.toolCalls
      (audioEnqueue t msg.audioDuration (accumTranscripts msg s))
      (by simp [h])
    rw [hx]
    refine ⟨?_, ?_, ?_, ?_⟩ <;> simp [h]

/-- The first accepted notifyResult sets the guard, acknowledges the call,
and starts exactly one finalization. -/
lemma hsm_first_notify (ts : String) (t : ℚ) (p : Bool) (r : String)
    (s : SessionState)
    (hI : s.isIntentionalClose = false) (hO : s.showContactOverlay = false)
    (hN : s.hasCalledNotify = false) (hS : s.sessionActive = true) :
    (handleServerMessage ts t (notifyMsg p r) s).hasCalledNotify = true ∧
    (handleServerMessage ts t (notifyMsg p r) s).acks = s.acks + 1 ∧
    (handleServerMessage ts t (notifyMsg p r) s).results.length +
        (handleServerMessage ts t (notifyMsg p r) s).pendingFinalize.length =
      s.results.length + s.pendingFinalize.length + 1 := by
  have hmsg : handleServerMessage ts t (notifyMsg p r) s =
      handleEndSession ts p (some r)
        { s with hasCalledNotify := true, acks := s.acks + 1 } := by
    simp [handleServerMessage, notifyMsg, accumTranscripts, audioEnqueue,
      processToolCalls, hI, hN, hS]
  rw [hmsg]
  refine ⟨by simp, by simp, ?_⟩
  have hg := handleEnd_growth ts p (some r)
    { s with hasCalledNotify := true, acks := s.acks + 1 } hO
  simpa using hg

/-! Claim theorems. -/

/-- C1.  In the shipped component the only guard in handleEndSession is
showContactOverlay, which becomes true only when finalizeEndSession runs.
When the agent's notifyResult is processed while the recorder is active,
finalization is deferred to a 500 ms timeout; an End Interview click
inside that window passes the guard (the recorder is already stopped, so
it finalizes immediately) and the session's first emitted result is the
generic {passed := false, reason := User terminated} outcome, not the
agent's stored decision — the stored decision only fires afterwards as a
second result.  This run evaluates the code on that interleaving:
notifyResult(true, Strong technical answers) is processed first, the
manual stop follows, then the pending finalize timeout fires. -/
theorem manual_stop_during_recorder_grace_overrides_agent_decision :
    (runTrace [Event.serverMsg "t1" 0 (notifyMsg true "Strong technical answers"),
               Event.manualStop "t2",
               Event.finalizeFire] liveState).results =
      [⟨false, some "User terminated", []⟩,
       ⟨true, some "Strong technical answers", []⟩] ∧
    (runTrace [Event.serverMsg "t1" 0 (notifyMsg true "Strong technical answers"),
               Event.manualStop "t2",
               Event.finalizeFire] liveState).results.head? ≠
      some ⟨true, some "Strong technical answers", []⟩ := by
  constructor
  · decide
  · decide

/-- C2.  The finalizeEndSession callback scheduled on the recorder-stop
timeout is anonymous and is not cancelled by cleanup, and
finalizeEndSession itself has no already-finalized guard, so onComplete
can fire twice: the agent's decision schedules a finalize, a manual stop
inside the 500 ms window finalizes immediately, and the pending timeout
then finalizes again.  This run evaluates the code on that interleaving
and counts two onComplete invocations. -/
theorem onComplete_fires_twice_on_decision_stop_race :
    (runTrace [Event.serverMsg "u1" 0 (notifyMsg false "Lack of real experience"),
               Event.manualStop "u2",
               Event.finalizeFire] liveState).results.length = 2 := by
  decide

/-- C3.  The Decision Arbiter accepts at most one notifyResult: (a) over
every event trace from the initial state at most one acknowledgement is
ever sent; (b) once the guard flag is set, any further server message
(including duplicate notifyResult calls) leaves the acknowledgement
count, the emitted results, the scheduled finalizations and the guard
unchanged; (c) the first accepted notifyResult sets the guard,
acknowledges the call, and starts exactly one finalization. -/
theorem notify_result_at_most_once :
    (∀ evs : List Event, (runTrace evs initialState).acks ≤ 1) ∧
    (∀ (ts : String) (t : ℚ) (msg : LiveMsg) (s : SessionState),
      s.hasCalledNotify = true →
        (handleServerMessage ts t msg s).acks = s.acks ∧
        (handleServerMessage ts t msg s).results = s.results ∧
        (handleServerMessage ts t msg s).pendingFinalize = s.pendingFinalize ∧
        (handleServerMessage ts t msg s).hasCalledNotify = true) ∧
    (∀ (ts : String) (t : ℚ) (p : Bool) (r : String) (s : SessionState),
      s.isIntentionalClose = false → s.showContactOverlay = false →
      s.hasCalledNotify = false → s.sessionActive = true →
        (handleServerMessage ts t (notifyMsg p r) s).hasCalledNotify = true ∧
        (handleServerMessage ts t (notifyMsg p r) s).acks = s.acks + 1 ∧
        (handleServerMessage ts t (notifyMsg p r) s).results.length +
            (handleServerMessage ts t (notifyMsg p r) s).pendingFinalize.length =
          s.results.length + s.pendingFinalize.length + 1) := by
  refine ⟨?_, ?_, ?_⟩
  · intro evs
    exact (runTrace_acksInv evs initialState ⟨by decide, fun _ => rfl⟩).1
  · intro ts t msg s h
    exact hsm_dup_noop ts t msg s h
  · intro ts t p r s hI hO hN hS
    exact hsm_first_notify ts t p r s hI hO hN hS

/-- Witness for C3 at concrete inputs: a two-decision trace keeps the
acknowledgement count at one; a duplicate call in the guarded state is
inert; a first call from the live state acknowledges and finalizes. -/
theorem notify_result_at_most_once_witness :
    (runTrace [Event.serverMsg "t1" 0 (notifyMsg true "ok"),
               Event.serverMsg "t2" 0 (notifyMsg false "dup")]
        initialState).acks ≤ 1 ∧
    (handleServerMessage "t3" 0 (notifyMsg false "dup")
        { liveState with hasCalledNotify := true }).acks =
      ({ liveState with hasCalledNotify := true } : SessionState).acks ∧
    (handleServerMessage "t4" 0 (notifyMsg true "strong") liveState).acks =
      liveState.acks + 1 :=
  ⟨notify_result_at_most_once.1 _,
   (notify_result_at_most_once.2.1 "t3" 0 (notifyMsg false "dup")
      { liveState with hasCalledNotify := true } rfl).1,
   (notify_result_at_most_once.2.2 "t4" 0 true "strong" liveState
      rfl rfl rfl rfl).2.1⟩

/-- C4.  The shipped timer effect at a zero budget only sends the
forced-conclusion system message: with no decision produced it emits no
result, schedules no finalization and shows no result screen — there is
no 3-second grace force-finalization in the component.  The behaviour the
spec describes exists only in the repository's add-ai-decision-ref.ps1
patch script, embedded as patchedGraceFire: it schedules exactly one
finalization with the timeout reason, which then emits the timeout
failure result. -/
theorem timer_expiry_does_not_force_finalize :
    (step Event.timerExpired { liveState with timeLeft := 0 }).systemMsgs = 1 ∧
    (step Event.timerExpired { liveState with timeLeft := 0 }).results = [] ∧
    (step Event.timerExpired { liveState with timeLeft := 0 }).pendingFinalize = [] ∧
    (step Event.timerExpired { liveState with timeLeft := 0 }).showContactOverlay = false ∧
    (patchedGraceFire "g1" { liveState with timeLeft := 0 }).pendingFinalize =
      [(false, some "Interview time limit reached (10 minutes)")] ∧
    (finalizeFireStep
        (patchedGraceFire "g1" { liveState with timeLeft := 0 })).results =
      [⟨false, some "Interview time limit reached (10 minutes)", []⟩] := by
  refine ⟨?_, ?_, ?_, ?_, ?_, ?_⟩ <;> decide

/-- C5.  Bounded reconnection with exponential backoff: a transient drop
(close at or after the 1-second threshold) schedules a reconnect exactly
while the retry count is below 3, with the delay min(1000·2^n, 5000) and
the count incremented; at an exhausted budget the state moves to error
with nothing scheduled; the count is reset to zero by onopen and by no
other event; the delay schedule is 1 s, 2 s, 4 s capped at 5 s; along any
trace without a newly established connection at most 3 reconnects are
ever scheduled; and four consecutive drops from a fresh connection
schedule exactly the three delays and end in the error state. -/
theorem reconnect_bounded_backoff :
    (∀ (s : SessionState) (now : Nat),
      s.isIntentionalClose = false → ¬ now - s.connectStart < 1000 →
      s.retryCount < 3 →
        (step (Event.closed now) s).connState = ConnState.reconnecting ∧
        (step (Event.closed now) s).retryCount = s.retryCount + 1 ∧
        (step (Event.closed now) s).scheduleLog =
          s.scheduleLog ++ [reconnectDelay s.retryCount] ∧
        (step (Event.closed now) s).retryTimerSet = true) ∧
    (∀ (s : SessionState) (now : Nat),
      s.isIntentionalClose = false → ¬ now - s.connectStart < 1000 →
      ¬ s.retryCount < 3 →
        (step (Event.closed now) s).connState = ConnState.error ∧
        (step (Event.closed now) s).scheduleLog = s.scheduleLog ∧
        (step (Event.closed now) s).retryTimerSet = s.retryTimerSet) ∧
    (∀ s : SessionState, (step Event.opened s).retryCount = 0) ∧
    (∀ (e : Event) (s : SessionState),
      (step e s).retryCount = 0 → e = Event.opened ∨ s.retryCount = 0) ∧
    (reconnectDelay 0 = 1000 ∧ reconnectDelay 1 = 2000 ∧
      reconnectDelay 2 = 4000 ∧ ∀ k : Nat, reconnectDelay k ≤ 5000) ∧
    (∀ (evs : List Event) (s : SessionState),
      (∀ e ∈ evs, e ≠ Event.opened) → s.retryCount = 0 →
        (runTrace evs s).scheduleLog.length ≤ s.scheduleLog.length + 3) ∧
    ((runTrace [Event.closed 5000, Event.closed 5000,
                Event.closed 5000, Event.closed 5000] liveState).scheduleLog =
        [reconnectDelay 0, reconnectDelay 1, reconnectDelay 2] ∧
      (runTrace [Event.closed 5000, Event.closed 5000,
                 Event.closed 5000, Event.closed 5000] liveState).connState =
        ConnState.error) := by
  refine ⟨?_, ?_, ?_, ?_, ?_, ?_, ?_⟩
  · intro s now hI h1000 hlt
    refine ⟨?_, ?_, ?_, ?_⟩ <;>
      simp [step, oncloseStep, handleDisconnect, hI, h1000, hlt]
  · intro s now hI h1000 hge
    refine ⟨?_, ?_, ?_⟩ <;>
      simp [step, oncloseStep, handleDisconnect, hI, h1000, hge]
  · intro s; rfl
  · intro e s h
    cases e with
    | opened => exact Or.inl rfl
    | serverMsg ts t msg =>
        right; simp only [step, hsm_retryCount] at h; exact h
    | manualStop ts =>
        right; simpa [step] using h
    | securityStop ts =>
        right; simpa [step, securityStopStep] using h
    | finalizeFire =>
        right; simpa [step] using h
    | timerTick =>
        right
        simp only [step, timerTickStep] at h
        split_ifs at h <;> simp_all
    | timerExpired =>
        right
        simp only [step, timerExpiredStep] at h
        split_ifs at h <;> simp_all
    | closed now =>
        right
        simp only [step, oncloseStep, handleDisconnect] at h
        split_ifs at h <;> simp_all
    | errored =>
        right
        simp only [step, onerrorStep, handleDisconnect] at h
        split_ifs at h <;> simp_all
    | retryFire now =>
        right
        simp only [step, retryFireStep, connectToGemini] at h
        split_ifs at h <;> simp_all
  · exact ⟨by decide, by decide, by decide, fun k => min_le_right _ _⟩
  · intro evs s he h0
    have hfin := runTrace_logBound s.scheduleLog.length evs s he
      ⟨Nat.le_add_right _ _, by omega⟩
    obtain ⟨c1, c2⟩ := hfin
    omega
  · exact ⟨by decide, by decide⟩

/-- Witness for C5 at concrete inputs: a drop at 5 seconds from the fresh
connected state schedules the first 1-second reconnect, and a trace of
four consecutive drops stays within the 3-attempt budget. -/
theorem reconnect_bounded_backoff_witness :
    ((step (Event.closed 5000) liveState).connState = ConnState.reconnecting ∧
      (step (Event.closed 5000) liveState).retryCount = liveState.retryCount + 1 ∧
      (step (Event.closed 5000) liveState).scheduleLog =
        liveState.scheduleLog ++ [reconnectDelay liveState.retryCount] ∧
      (step (Event.closed 5000) liveState).retryTimerSet = true) ∧
    (runTrace [Event.closed 5000, Event.closed 5000,
               Event.closed 5000, Event.closed 5000] liveState).scheduleLog.length ≤
      liveState.scheduleLog.length + 3 :=
  ⟨reconnect_bounded_backoff.1 liveState 5000 rfl (by decide) (by decide),
   reconnect_bounded_backoff.2.2.2.2.2.1
     [Event.closed 5000, Event.closed 5000, Event.closed 5000, Event.closed 5000]
     liveState (by decide) rfl⟩

/-- C6 counterexample.  The onerror callback never performs the
sub-second configuration-failure classification: it runs handleDisconnect
unconditionally, so an error event — whenever it occurs, including
within 1 second of the connect attempt start (the model's errored event
carries no timestamp precisely because the source callback never reads
the clock) — moves the fresh session to reconnecting with a scheduled
1-second retry, not to the error state. -/
theorem error_event_fast_failure_still_retries :
    (step Event.errored liveState).connState = ConnState.reconnecting ∧
    (step Event.errored liveState).scheduleLog = [reconnectDelay 0] ∧
    (step Event.errored liveState).retryTimerSet = true ∧
    (step Event.errored liveState).connState ≠ ConnState.error := by
  refine ⟨?_, ?_, ?_, ?_⟩ <;> decide

/-- C6 as amended.  Only the close path classifies a sub-second
close as a configuration failure — error state at once, user-visible
message, no retry ever scheduled; the error path always runs the
transient-drop handler handleDisconnect regardless of elapsed time. -/
theorem fast_close_config_failure_close_path_only :
    (∀ (s : SessionState) (now : Nat), now - s.connectStart < 1000 →
        (step (Event.closed now) s).connState = ConnState.error ∧
        (step (Event.closed now) s).scheduleLog = s.scheduleLog ∧
        (step (Event.closed now) s).retryCount = s.retryCount ∧
        (step (Event.closed now) s).retryTimerSet = s.retryTimerSet ∧
        (step (Event.closed now) s).errorMsg =
          some "Connection rejected. Please check API Key or Network.") ∧
    (∀ s : SessionState, step Event.errored s = handleDisconnect s) := by
  constructor
  · intro s now h
    refine ⟨?_, ?_, ?_, ?_, ?_⟩ <;> simp [step, oncloseStep, h]
  · intro s; rfl

/-- Witness for C6's amended theorem: a close 100 milliseconds into the
connect attempt yields the error state with no retry scheduled. -/
theorem fast_close_config_failure_close_path_only_witness :
    (step (Event.closed 100) liveState).connState = ConnState.error ∧
    (step (Event.closed 100) liveState).scheduleLog = liveState.scheduleLog ∧
    (step (Event.closed 100) liveState).retryCount = liveState.retryCount ∧
    (step (Event.closed 100) liveState).retryTimerSet = liveState.retryTimerSet ∧
    (step (Event.closed 100) liveState).errorMsg =
      some "Connection rejected. Please check API Key or Network." :=
  fast_close_config_failure_close_path_only.1 liveState 100 (by decide)

/-! Playback-scheduler machinery for claim C7. -/

/-- The duration of every decoded audio buffer carried by an event is
non-negative (a decoded buffer's duration is never negative). -/
def nonnegDur : Event → Prop
  | .serverMsg _ _ msg => ∀ d : ℚ, msg.audioDuration = some d → 0 ≤ d
  | _ => True

/-- The playback-timeline invariant: scheduled start times form a
non-decreasing chain, all of them at or before the next free time. -/
def playbackInv (s : SessionState) : Prop :=
  List.Chain' (· ≤ ·) s.scheduledStarts ∧
    ∀ x ∈ s.scheduledStarts, x ≤ s.nextStartTime

lemma playbackInv_congr {s s' : SessionState}
    (hl : s'.scheduledStarts = s.scheduledStarts)
    (hn : s'.nextStartTime = s.nextStartTime) (h : playbackInv s) :
    playbackInv s' := by
  unfold playbackInv at *
  rw [hl, hn]
  exact h

/-- The source's scheduling expression equals the later of the clock and
the next free time. -/
lemma startEq (t next : ℚ) : (if next < t then t else next) = max t next := by
  rcases lt_or_le next t with h | h
  · simp [h, max_eq_left h.le]
  · simp [not_lt.mpr h, max_eq_right h]

lemma audioEnqueue_playbackInv (t : ℚ) (ad : Option ℚ) (s : SessionState)
    (hd : ∀ d, ad = some d → 0 ≤ d) (h : playbackInv s) :
    playbackInv (audioEnqueue t ad s) := by
  cases ad with
  | none => exact h
  | some d =>
      have hd0 : 0 ≤ d := hd d rfl
      simp only [audioEnqueue, startEq]
      split_ifs with hc
      · obtain ⟨h1, h2⟩ := h
        have hns : s.nextStartTime ≤ max t s.nextStartTime := le_max_right t s.nextStartTime
        constructor
        · show List.Chain' (· ≤ ·) (s.scheduledStarts ++ [max t s.nextStartTime])
          refine List.Chain'.append h1 (List.chain'_singleton _) ?_
          intro x hx y hy
          obtain ⟨hne, hxeq⟩ := List.mem_getLast?_eq_getLast hx
          simp only [List.head?_cons, Option.mem_def, Option.some.injEq] at hy
          subst hy
          exact le_trans (h2 x (hxeq ▸ List.getLast_mem hne)) hns
        · show ∀ x ∈ s.scheduledStarts ++ [max t s.nextStartTime],
            x ≤ max t s.nextStartTime + d
          intro x hx
          rcases List.mem_append.mp hx with hx | hx
          · exact le_trans (le_trans (h2 x hx) hns) (le_add_of_nonneg_right hd0)
          · simp only [List.mem_singleton] at hx
            subst hx
            exact le_add_of_nonneg_right hd0
      · exact h

lemma hsm_playbackInv (ts : String) (t : ℚ) (msg : LiveMsg) (s : SessionState)
    (hd : ∀ d, msg.audioDuration = some d → 0 ≤ d) (h : playbackInv s) :
    playbackInv (handleServerMessage ts t msg s) := by
  simp only [handleServerMessage]
  split_ifs
  · exact h
  · exact ⟨by simp, by simp⟩
  · have h2 : playbackInv (commitTurn ts (accumTranscripts msg s)) :=
      playbackInv_congr (by simp) (by simp) h
    have h3 := audioEnqueue_playbackInv t msg.audioDuration _ hd h2
    exact playbackInv_congr (by simp) (by simp) h3
  · have h2 : playbackInv (accumTranscripts msg s) :=
      playbackInv_congr (by simp) (by simp) h
    have h3 := audioEnqueue_playbackInv t msg.audioDuration _ hd h2
    exact playbackInv_congr (by simp) (by simp) h3

lemma step_playbackInv (e : Event) (s : SessionState) (he : nonnegDur e)
    (h : playbackInv s) : playbackInv (step e s) := by
  cases e with
  | serverMsg ts t msg => exact hsm_playbackInv ts t msg s he h
  | manualStop ts => refine playbackInv_congr ?_ ?_ h <;> simp [step]
  | securityStop ts =>
      refine playbackInv_congr ?_ ?_ h <;> simp [step, securityStopStep]
  | finalizeFire => refine playbackInv_congr ?_ ?_ h <;> simp [step]
  | timerTick =>
      show playbackInv (timerTickStep s)
      unfold timerTickStep
      split_ifs <;> exact h
  | timerExpired =>
      show playbackInv (timerExpiredStep s)
      unfold timerExpiredStep
      split_ifs <;> exact h
  | opened => exact h
  | closed now =>
      show playbackInv (oncloseStep now s)
      simp only [oncloseStep, handleDisconnect]
      split_ifs <;> exact h
  | errored =>
      show playbackInv (onerrorStep s)
      simp only [onerrorStep, handleDisconnect]
      split_ifs <;> exact h
  | retryFire now =>
      show playbackInv (retryFireStep now s)
      simp only [retryFireStep, connectToGemini]
      split_ifs <;> exact h

lemma runTrace_playbackInv (evs : List Event) :
    ∀ s : SessionState, (∀ e ∈ evs, nonnegDur e) → playbackInv s →
      playbackInv (runTrace evs s) := by
  induction evs with
  | nil => intro s _ h; exact h
  | cons e rest ih =>
      intro s he h
      exact ih (step e s) (fun x hx => he x (List.mem_cons_of_mem e hx))
        (step_playbackInv e s (he e (List.mem_cons_self e rest)) h)

/-- C7.  Playback scheduling is monotone and flush-aware: (a) along every
event trace with non-negative buffer durations the scheduled start times
form a non-decreasing chain; (b) an enqueue with a live audio context
schedules the buffer at the later of the clock time and the next free
time and advances the next free time by the duration; (c) an interruption
message resets the next free time to zero and clears the pending
schedule; (d) an enqueue after such a flush starts exactly at the current
clock time. -/
theorem playback_schedule_monotone_and_flush_reset :
    (∀ evs : List Event, (∀ e ∈ evs, nonnegDur e) →
      List.Chain' (· ≤ ·) (runTrace evs initialState).scheduledStarts) ∧
    (∀ (t d : ℚ) (s : SessionState), s.audioCtxActive = true →
      (audioEnqueue t (some d) s).scheduledStarts =
        s.scheduledStarts ++ [max t s.nextStartTime] ∧
      (audioEnqueue t (some d) s).nextStartTime = max t s.nextStartTime + d) ∧
    (∀ (ts : String) (t : ℚ) (msg : LiveMsg) (s : SessionState),
      s.isIntentionalClose = false → msg.interrupted = true →
        (handleServerMessage ts t msg s).nextStartTime = 0 ∧
        (handleServerMessage ts t msg s).scheduledStarts = []) ∧
    (∀ (t d : ℚ) (s : SessionState), s.nextStartTime = 0 →
      s.audioCtxActive = true → 0 ≤ t →
        (audioEnqueue t (some d) s).scheduledStarts =
          s.scheduledStarts ++ [t]) := by
  refine ⟨?_, ?_, ?_, ?_⟩
  · intro evs he
    exact (runTrace_playbackInv evs initialState he
      ⟨List.chain'_nil, by intro x hx; simp [initialState] at hx⟩).1
  · intro t d s hc
    constructor <;> simp [audioEnqueue, hc, startEq]
  · intro ts t msg s hI hint
    constructor <;> simp [handleServerMessage, hI, hint]
  · intro t d s h0 hc ht
    have : max t s.nextStartTime = t := by
      rw [h0]
      exact max_eq_left ht
    simp [audioEnqueue, hc, startEq, this]

/-- Witness for C7 at concrete inputs: a single audio message from the
initial state yields a monotone schedule; an enqueue at clock 2 with the
next free time 0 starts at 2; an interruption resets the timeline; an
enqueue at clock 7 after a flush starts exactly at 7. -/
theorem playback_schedule_monotone_and_flush_reset_witness :
    List.Chain' (· ≤ ·)
      (runTrace [Event.serverMsg "a" 2 ⟨none, none, false, false, some 3, []⟩]
        initialState).scheduledStarts ∧
    (audioEnqueue 2 (some 3) liveState).scheduledStarts =
      liveState.scheduledStarts ++ [max 2 liveState.nextStartTime] ∧
    (handleServerMessage "b" 0 ⟨none, none, true, false, some 3, []⟩
        liveState).nextStartTime = 0 ∧
    (audioEnqueue 7 (some 3)
        ({ liveState with nextStartTime := 0 } : SessionState)).scheduledStarts =
      ({ liveState with nextStartTime := 0 } : SessionState).scheduledStarts ++ [7] :=
  ⟨playback_schedule_monotone_and_flush_reset.1 _
      (by
        intro e he
        simp only [List.mem_singleton] at he
        subst he
        intro d hd
        simp only [Option.some.injEq] at hd
        subst hd
        norm_num),
   (playback_schedule_monotone_and_flush_reset.2.1 2 3 liveState rfl).1,
   (playback_schedule_monotone_and_flush_reset.2.2.1 "b" 0
      ⟨none, none, true, false, some 3, []⟩ liveState rfl rfl).1,
   playback_schedule_monotone_and_flush_reset.2.2.2 7 3
      { liveState with nextStartTime := 0 } rfl rfl (by norm_num)⟩

/-- C8 counterexample.  The second onaudioprocess variant (lines
1389-1423) gates frames on an RMS threshold of 0.002, so an all-zero
(silent) captured frame delivered with a live session and no shutdown is
dropped, while the first variant transmits it — the claim that every
captured frame is transmitted, with no energy-based filtering, fails on
the second variant. -/
theorem silent_frame_dropped_by_gated_variant :
    onaudioprocessV1 false true [0, 0, 0, 0] = true ∧
    onaudioprocessV2 false true [0, 0, 0, 0] = false := by
  constructor
  · rfl
  · norm_num [onaudioprocessV2, rmsSq]

/-- C8 as amended.  The two shipped capture variants differ: variant 1
transmits every frame that reaches the callback with a live session and
no shutdown, with no energy measure at all; variant 2 computes the
frame's RMS energy and transmits exactly the frames at or above the
hard-coded 0.002 threshold (the gate is not a configuration choice); both
variants drop everything after shutdown or without a session handle. -/
theorem capture_transmission_variants :
    (∀ frame : List ℚ, onaudioprocessV1 false true frame = true) ∧
    (∀ frame : List ℚ,
      onaudioprocessV2 false true frame = true ↔
        ¬ rmsSq frame < (2 / 1000 : ℚ) ^ 2) ∧
    (∀ (frame : List ℚ) (sl : Bool), onaudioprocessV1 true sl frame = false ∧
      onaudioprocessV2 true sl frame = false) ∧
    (∀ frame : List ℚ, onaudioprocessV1 false false frame = false ∧
      onaudioprocessV2 false false frame = false) := by
  refine ⟨?_, ?_, ?_, ?_⟩
  · intro frame; rfl
  · intro frame
    simp only [onaudioprocessV2, if_false, Bool.not_true, Bool.false_eq_true,
      Bool.not_false]
    split_ifs with h
    · simp [h]
    · simp [h]
  · intro frame sl; exact ⟨rfl, rfl⟩
  · intro frame; exact ⟨rfl, rfl⟩

/-- C9 counterexample.  On an interruption the partial agent turn is
committed, but the TranscriptEntry interface of src/src/types.ts has no
interrupted field at all: the code marks the interruption by appending
the literal text marker to the entry's text, so the committed entry's
text is not the spoken content with a separate boolean — it is the
content with the marker fused in. -/
theorem interruption_marker_embedded_in_text :
    (handleServerMessage "10:00:00" 0 ⟨none, none, true, false, none, []⟩
        { liveState with currentAi := "Hello " }).transcript =
      [⟨Speaker.ai, "Hello [Interrupted]", "10:00:00"⟩] ∧
    ("Hello [Interrupted]" : String) ≠ "Hello" ∧
    (handleServerMessage "10:00:00" 0 ⟨none, none, true, false, none, []⟩
        { liveState with currentAi := "Hello " }).currentAi = "" := by
  refine ⟨?_, ?_, ?_⟩ <;> decide

/-- C9 as amended.  On an interruption signal with a non-empty trimmed
agent buffer, the handler immediately appends one TranscriptEntry whose
text is the trimmed buffer with the Interrupted marker appended and whose
fields are exactly speaker, text and timestamp, and clears the buffer, so
no spoken content is dropped; the interruption marking lives in the text,
not in a boolean field. -/
theorem interruption_commit_appends_marked_text (ts : String) (t : ℚ)
    (msg : LiveMsg) (s : SessionState)
    (hI : s.isIntentionalClose = false) (hint : msg.interrupted = true)
    (hIn : msg.inputTranscription = none) (hOut : msg.outputTranscription = none)
    (hne : jsTrim s.currentAi ≠ "") :
    (handleServerMessage ts t msg s).transcript =
      s.transcript ++ [⟨Speaker.ai, jsTrim s.currentAi ++ " [Interrupted]", ts⟩] ∧
    (handleServerMessage ts t msg s).currentAi = "" := by
  have hacc : accumTranscripts msg s = s := by
    simp [accumTranscripts, hIn, hOut]
  constructor <;> simp [handleServerMessage, hI, hint, hacc, interruptFlush, hne]

/-- Witness for C9's amended theorem at a concrete interruption. -/
theorem interruption_commit_appends_marked_text_witness :
    (handleServerMessage "t9" 0 ⟨none, none, true, false, none, []⟩
        { liveState with currentAi := " partial answer " }).transcript =
      ({ liveState with currentAi := " partial answer " } : SessionState).transcript ++
        [⟨Speaker.ai,
          jsTrim (" partial answer " : String) ++ " [Interrupted]", "t9"⟩] ∧
    (handleServerMessage "t9" 0 ⟨none, none, true, false, none, []⟩
        { liveState with currentAi := " partial answer " }).currentAi = "" :=
  interruption_commit_appends_marked_text "t9" 0 ⟨none, none, true, false, none, []⟩
    { liveState with currentAi := " partial answer " } rfl rfl rfl rfl (by decide)

/-- C10.  A server message carrying the interrupted flag is handled by
the flush block alone, which returns from the handler: any audio payload
is not scheduled (the timeline is reset to zero and the pending schedule
cleared instead), a turnComplete flag commits nothing through the
turn-boundary path (the question counter is untouched), and a toolCall —
including a notifyResult decision — is neither acknowledged nor
finalized. -/
theorem interrupted_message_skips_rest (ts : String) (t : ℚ) (msg : LiveMsg)
    (s : SessionState) (hI : s.isIntentionalClose = false)
    (hint : msg.interrupted = true) :
    (handleServerMessage ts t msg s).acks = s.acks ∧
    (handleServerMessage ts t msg s).hasCalledNotify = s.hasCalledNotify ∧
    (handleServerMessage ts t msg s).results = s.results ∧
    (handleServerMessage ts t msg s).pendingFinalize = s.pendingFinalize ∧
    (handleServerMessage ts t msg s).questionCount = s.questionCount ∧
    (handleServerMessage ts t msg s).nextStartTime = 0 ∧
    (handleServerMessage ts t msg s).scheduledStarts = [] ∧
    (handleServerMessage ts t msg s).sourcesCount = 0 ∧
    (handleServerMessage ts t msg s).isAiSpeaking = false := by
  refine ⟨?_, ?_, ?_, ?_, ?_, ?_, ?_, ?_, ?_⟩ <;>
    simp [handleServerMessage, hI, hint]

/-- Witness for C10: a message that simultaneously carries transcription
fragments, the interrupted flag, a turnComplete flag, an audio payload
and a notifyResult tool call neither acknowledges nor finalizes the
decision, schedules no audio, and counts no question. -/
theorem interrupted_message_skips_rest_witness :
    (handleServerMessage "w" 4
        ⟨some "hi", some "Are you there?", true, true, some 5,
          [⟨"notifyResult", true, "strong"⟩]⟩ liveState).acks = liveState.acks ∧
    (handleServerMessage "w" 4
        ⟨some "hi", some "Are you there?", true, true, some 5,
          [⟨"notifyResult", true, "strong"⟩]⟩ liveState).hasCalledNotify =
      liveState.hasCalledNotify ∧
    (handleServerMessage "w" 4
        ⟨some "hi", some "Are you there?", true, true, some 5,
          [⟨"notifyResult", true, "strong"⟩]⟩ liveState).results =
      liveState.results ∧
    (handleServerMessage "w" 4
        ⟨some "hi", some "Are you there?", true, true, some 5,
          [⟨"notifyResult", true, "strong"⟩]⟩ liveState).questionCount =
      liveState.questionCount ∧
    (handleServerMessage "w" 4
        ⟨some "hi", some "Are you there?", true, true, some 5,
          [⟨"notifyResult", true, "strong"⟩]⟩ liveState).scheduledStarts = [] := by
  have h := interrupted_message_skips_rest "w" 4
    ⟨some "hi", some "Are you there?", true, true, some 5,
      [⟨"notifyResult", true, "strong"⟩]⟩ liveState rfl rfl
  exact ⟨h.1, h.2.1, h.2.2.1, h.2.2.2.2.1, h.2.2.2.2.2.2.1⟩

end AiRecruiter
